import Mathlib

/-!
# Verification of the live-plotting core of `automate/qtgraph.py`

A shallow embedding of the three classes in `src/automate/qtgraph.py`
(`ResultsCurve`, `BufferCurve`, `Crosshairs`) together with theorems about
their behaviour.

Modelling conventions:
* numeric values are exact rationals (`ℚ`);
* a numpy buffer row is a `List ℚ` (width 2 or 4, as allocated by `prepare`);
  the uninitialised contents of `np.empty` are modelled as zeros — no theorem
  below depends on the junk values of unwritten cells;
* a Qt signal is modelled by recording its emissions in the state
  (`emits` counter for `data_updated`, `emitted` list for `coordinates`);
* `pg.PlotDataItem.setData` / `pg.ErrorBarItem.setOpts` /
  `pg.InfiniteLine.setPos` are external display calls: the state records the
  last arguments handed to them;
* a Python exception is modelled by returning the post-state together with
  `some` error code — the post-state captures exactly the mutations performed
  before the raise;
* `np.max` over a zero-size slice raises `ValueError` in numpy
  (`valueErrorEmptyMax` below); assigning `None` into a float array raises
  `TypeError` (`typeErrorNoneFloat` below).
-/

namespace Qtgraph

/-- The failure modes of the core, following the spec's error taxonomy §7:
`configurationError` = "BufferCurve buffer must be prepared",
`capacityExceeded` = "BufferCurve overflow",
`typeErrorNoneFloat` = `TypeError` from writing `None` into a float row,
`valueErrorEmptyMax` = `ValueError` from `np.max` on a zero-size slice,
`dataBinding` = `KeyError` from an absent snapshot column,
`invalidCall` = "Mouse location not known". -/
inductive QtErr where
  | configurationError
  | capacityExceeded
  | typeErrorNoneFloat
  | valueErrorEmptyMax
  | dataBinding
  | invalidCall
deriving DecidableEq

/-! ## BufferCurve -/

/-- Reading a row's first two cells as the (x, y) point, as
`self._buffer[i,:2]` does. -/
def pairOf (r : List ℚ) : ℚ × ℚ := (r.getD 0 0, r.getD 1 0)

/-- The arguments of the six sequence-valued options handed to
`ErrorBarItem.setOpts` in `BufferCurve.append` (lines 87–95), plus the scalar
beam `np.max(self._buffer[:ptr,2:])`. -/
structure BufOverlay where
  x : List ℚ
  y : List ℚ
  top : List ℚ
  bottom : List ℚ
  left : List ℚ
  right : List ℚ
  beam : ℚ
deriving DecidableEq

/-- State of a `BufferCurve`: the error-mode flag fixed at construction
(`errors`), the numpy buffer (`None` before `prepare`), the write cursor
`_ptr`, the last series published through `setData`, the last overlay handed
to `setOpts`, and the number of `data_updated` emissions. -/
structure BufferCurve where
  errors : Bool
  buffer : Option (List (List ℚ))
  ptr : Nat
  series : Option (List (ℚ × ℚ))
  overlay : Option BufOverlay
  emits : Nat
deriving DecidableEq

/-- Model of `BufferCurve.__init__(errors=...)`: no buffer yet, nothing published.
(`_ptr` does not exist before `prepare` in the Python object; the field here
is initialised to 0 and is never read before `prepare`, because `append`
checks `buffer` first.) -/
def mkBufferCurve (errors : Bool) : BufferCurve :=
  { errors := errors, buffer := none, ptr := 0, series := none,
    overlay := none, emits := 0 }

/-- Row width chosen by `prepare`: 4 cells with error mode, 2 without. -/
def rowWidth (errors : Bool) : Nat := if errors then 4 else 2

/-- A freshly allocated row (`np.empty` contents modelled as zeros). -/
def zrow (w : Nat) : List ℚ := List.replicate w 0

/-- Model of `BufferCurve.prepare(size)`: allocate a `size × width` buffer and reset
`_ptr` to 0. -/
def bufPrepare (s : BufferCurve) (size : Nat) : BufferCurve :=
  { s with buffer := some (List.replicate size (zrow (rowWidth s.errors))),
           ptr := 0 }

/-- Model of `self._buffer[i,:2] = [x, y]` applied to one row: overwrite the first two
cells, keep any error cells. -/
def setXY (r : List ℚ) (x y : ℚ) : List ℚ := x :: y :: r.drop 2

/-- Model of `self._buffer[i,2:] = [xError, yError]` applied to one row. -/
def setErr (r : List ℚ) (a b : ℚ) : List ℚ := r.take 2 ++ [a, b]

/-- Model of `self._buffer[:ptr,:2]`, the visible slice handed to `setData`. -/
def visSlice (buf : List (List ℚ)) (ptr : Nat) : List (ℚ × ℚ) :=
  (buf.take ptr).map pairOf

/-- Column `j` of the visible slice, `self._buffer[:ptr,j]`. -/
def colSlice (buf : List (List ℚ)) (ptr : Nat) (j : Nat) : List ℚ :=
  (buf.take ptr).map (fun r => r.getD j 0)

/-- Model of `np.max` over a non-empty list (never invoked on `[]` below: the code
path guarding it models numpy's `ValueError` on a zero-size slice). -/
def npMaxD : List ℚ → ℚ
  | [] => 0
  | a :: as => as.foldl max a

/-- The cells of `self._buffer[:ptr,2:]` flattened, the operand of `np.max`
in the beam computation. -/
def errCells (buf : List (List ℚ)) (ptr : Nat) : List ℚ :=
  ((buf.take ptr).map (fun r => r.drop 2)).flatten

/-- The six sequence options computed for `setOpts` in
`BufferCurve.append` — every slice is `self._buffer[:ptr,·]`: x/y from
columns 0/1, top and bottom both from column 3 (yError), left and right both
from column 2 (xError). -/
def bufErrOpts (buf : List (List ℚ)) (ptr : Nat) (beam : ℚ) : BufOverlay :=
  { x := colSlice buf ptr 0, y := colSlice buf ptr 1,
    top := colSlice buf ptr 3, bottom := colSlice buf ptr 3,
    left := colSlice buf ptr 2, right := colSlice buf ptr 2, beam := beam }

/-- Model of `BufferCurve.append(x, y, xError=None, yError=None)`, lines 73–98 of
`qtgraph.py`, mutation for mutation:
1. raise if the buffer was never prepared;
2. raise "overflow" if `len(buffer) ≤ ptr`;
3. write `(x, y)` into row `ptr` and publish `buffer[:ptr,:2]` via `setData`;
4. with error mode: write the error cells (raising `TypeError` first when an
   error argument is `None`), then evaluate the `setOpts` keyword arguments —
   `beam = np.max(buffer[:ptr,2:])` raises `ValueError` when `ptr = 0`
   (zero-size reduction), in which case `setOpts` is never invoked;
5. on success increment `ptr` and emit `data_updated`. -/
def bufAppend (s : BufferCurve) (x y : ℚ) (xe ye : Option ℚ) :
    BufferCurve × Option QtErr :=
  match s.buffer with
  | none => (s, some .configurationError)
  | some buf =>
    if buf.length ≤ s.ptr then (s, some .capacityExceeded)
    else
      let buf1 := buf.set s.ptr (setXY (buf.getD s.ptr []) x y)
      let s1 := { s with buffer := some buf1,
                         series := some (visSlice buf1 s.ptr) }
      if s.errors then
        match xe, ye with
        | some a, some b =>
          let buf2 := buf1.set s.ptr (setErr (buf1.getD s.ptr []) a b)
          let s2 := { s1 with buffer := some buf2 }
          if s.ptr = 0 then (s2, some .valueErrorEmptyMax)
          else
            let ov := bufErrOpts buf2 s.ptr (npMaxD (errCells buf2 s.ptr))
            ({ s2 with overlay := some ov, ptr := s.ptr + 1,
                       emits := s.emits + 1 }, none)
        | _, _ => (s1, some .typeErrorNoneFloat)
      else
        ({ s1 with ptr := s.ptr + 1, emits := s.emits + 1 }, none)

/-- A sequence of `append` calls, stopping at the first failure; each entry
is `((x, y), (xError, yError))`. -/
def bufAppendSeq : BufferCurve → List ((ℚ × ℚ) × Option ℚ × Option ℚ) →
    BufferCurve × Option QtErr
  | s, [] => (s, none)
  | s, a :: as =>
    match bufAppend s a.1.1 a.1.2 a.2.1 a.2.2 with
    | (s', none) => bufAppendSeq s' as
    | (s', some e) => (s', some e)

/-! ## ResultsCurve -/

/-- The error overlay handed to `setOpts` by `ResultsCurve.update`
(lines 42–50); every field, `beam` included, is a column sequence. -/
structure ResOverlay where
  x : List ℚ
  y : List ℚ
  top : List ℚ
  bottom : List ℚ
  left : List ℚ
  right : List ℚ
  beam : List ℚ
deriving DecidableEq

/-- Modelled from the spec: the backing `Results` object
(`automate.experiment`, outside `src/`) is the external ResultsSource of
spec §2/§6 — a snapshot mapping column name → ordered numeric sequence, plus
a `reload()` that re-reads the backing file. A snapshot is an association
list; `onReload` is the snapshot the next `reload` will install;
`reloadCount` counts `reload` invocations. -/
structure Results where
  current : List (String × List ℚ)
  onReload : List (String × List ℚ)
  reloadCount : Nat
deriving DecidableEq

/-- Modelled from the spec: `Results.reload()` refreshes the snapshot. -/
def reloadR (r : Results) : Results :=
  { r with current := r.onReload, reloadCount := r.reloadCount + 1 }

/-- Model of `data[name]` where `name` may be a configured error-column `Option`:
`data[None]` and an absent key both raise (`dataBinding`). -/
def lookupColO (snap : List (String × List ℚ)) (name : Option String) :
    Option (List ℚ) :=
  name.bind (fun n => List.lookup n snap)

/-- Python truthiness of the `xerr` / `yerr` constructor arguments
(`if xerr or yerr:`): `None` and the empty string are falsy. -/
def truthyName : Option String → Bool
  | none => false
  | some s => !(s == "")

/-- Python's builtin lexicographic `>` on numeric sequences, used by
`max(data[self.xerr], data[self.yerr])`. -/
def pyGt : List ℚ → List ℚ → Bool
  | [], _ => false
  | _ :: _, [] => true
  | a :: as, b :: bs => if a > b then true else if b > a then false else pyGt as bs

/-- Python's builtin `max(a, b)` on sequences: returns `b` iff `b > a`
lexicographically (the first argument on ties). -/
def pyMax (a b : List ℚ) : List ℚ := if pyGt b a then b else a

/-- State of a `ResultsCurve`: the bound source, the column names fixed at
construction, the `force_reload` flag, whether `_errorBars` exists
(`if xerr or yerr:`), the last series handed to `setData` and the last
overlay handed to `setOpts`. -/
structure ResultsCurve where
  results : Results
  x : String
  y : String
  xerr : Option String
  yerr : Option String
  force_reload : Bool
  hasErrorBars : Bool
  series : Option (List ℚ × List ℚ)
  overlay : Option ResOverlay
deriving DecidableEq

/-- Model of `ResultsCurve.__init__(results, x, y, xerr, yerr, force_reload)`. -/
def mkResultsCurve (results : Results) (x y : String)
    (xerr yerr : Option String) (force_reload : Bool) : ResultsCurve :=
  { results := results, x := x, y := y, xerr := xerr, yerr := yerr,
    force_reload := force_reload,
    hasErrorBars := truthyName xerr || truthyName yerr,
    series := none, overlay := none }

/-- The source state after the optional forced reload at the top of
`update()`. -/
def effResults (c : ResultsCurve) : Results :=
  if c.force_reload then reloadR c.results else c.results

/-- Model of `ResultsCurve.update()`, lines 30–50 of `qtgraph.py`:
reload if forced; read the snapshot once; `setData(data[x], data[y])`
(`data[x]` evaluated before `data[y]`, both before the call); then, if error
bars exist, evaluate the `setOpts` keyword arguments in source order —
`top = data[yerr]` is the first error-column access, `left = data[xerr]` the
next new one — so an absent y-error column raises after `setData` already
replaced the series, as does an absent x-error column; `right` is built from
`data[yerr]` and `beam` from Python's `max` of the two error columns. -/
def rcUpdate (c : ResultsCurve) : ResultsCurve × Option QtErr :=
  let r := effResults c
  let c0 := { c with results := r }
  match List.lookup c.x r.current with
  | none => (c0, some .dataBinding)
  | some xs =>
    match List.lookup c.y r.current with
    | none => (c0, some .dataBinding)
    | some ys =>
      let c1 := { c0 with series := some (xs, ys) }
      if c.hasErrorBars then
        match lookupColO r.current c.yerr with
        | none => (c1, some .dataBinding)
        | some yes =>
          match lookupColO r.current c.xerr with
          | none => (c1, some .dataBinding)
          | some xes =>
            ({ c1 with
                overlay := some ⟨xs, ys, yes, yes, xes, yes, pyMax xes yes⟩ },
             none)
      else (c1, none)

/-- Iterating `n` successive `update()` calls (the state after, errors discarded as a
caller catching them would). -/
def rcUpdateN : Nat → ResultsCurve → ResultsCurve
  | 0, c => c
  | n + 1, c => rcUpdateN n (rcUpdate c).1

/-! ## Crosshairs -/

/-- The current view transform of the plot (external, spec §6
`sceneToData`): an affine map, covering identity, pan and zoom. -/
structure Transform where
  a : ℚ
  b : ℚ
  c : ℚ
  d : ℚ
  e : ℚ
  f : ℚ
deriving DecidableEq

/-- Model of `plot.vb.mapSceneToView(p)` under the affine view transform. -/
def applyT (t : Transform) (p : ℚ × ℚ) : ℚ × ℚ :=
  (t.a * p.1 + t.b * p.2 + t.e, t.c * p.1 + t.d * p.2 + t.f)

/-- The identity view transform. -/
def idTransform : Transform := ⟨1, 0, 0, 1, 0, 0⟩

/-- State of a `Crosshairs`: the plot's view transform, the last recorded
scene position (`None` before the first event), the positions of the
vertical and horizontal guide lines (`InfiniteLine` default position 0), and
the list of `coordinates` signal emissions. -/
structure Crosshairs where
  transform : Transform
  position : Option (ℚ × ℚ)
  vLine : ℚ
  hLine : ℚ
  emitted : List (ℚ × ℚ)
deriving DecidableEq

/-- Model of `Crosshairs.__init__`: no position recorded yet. -/
def mkCrosshairs (t : Transform) : Crosshairs :=
  { transform := t, position := none, vLine := 0, hLine := 0, emitted := [] }

/-- Model of `Crosshairs.update()`, lines 132–141: with no recorded position, do
nothing; otherwise map the last scene position through the current view
transform, emit `coordinates(x, y)` and move the two guide lines. -/
def chUpdate (s : Crosshairs) : Crosshairs :=
  match s.position with
  | none => s
  | some p =>
    let m := applyT s.transform p
    { s with emitted := s.emitted ++ [m], vLine := m.1, hLine := m.2 }

/-- Model of `Crosshairs.mouseMoved(event=None)`, lines 143–149: a real event records
its position (`event[0]`) and runs `update()`; an explicit `None` event
raises "Mouse location not known" with nothing mutated. -/
def mouseMoved (s : Crosshairs) (event : Option (ℚ × ℚ)) :
    Crosshairs × Option QtErr :=
  match event with
  | some p => (chUpdate { s with position := some p }, none)
  | none => (s, some .invalidCall)

/-! ## Auxiliary states used in the development -/

/-- The width-2 row holding a point, as `append` writes it. -/
def xyRow (p : ℚ × ℚ) : List ℚ := [p.1, p.2]

/-- The state of a non-error-mode `BufferCurve` of capacity `C` after the
points `done` have been appended to a freshly prepared buffer: the rows
written so far followed by the untouched allocation, cursor and emission
count at `done.length`, and the series published by the last append — the
slice `[0, ptr)` as of that call, i.e. all but the final point. -/
def nonErrState (C : Nat) (done : List (ℚ × ℚ)) : BufferCurve :=
  { errors := false,
    buffer := some (done.map xyRow ++ List.replicate (C - done.length) (zrow 2)),
    ptr := done.length,
    series := if done.isEmpty then none else some (done.take (done.length - 1)),
    overlay := none,
    emits := done.length }

/-- A source whose snapshot has x/y columns and two distinct error columns
(`xe = [1, 5]`, `ye = [2, 0]`). -/
def c4res : Results :=
  ⟨[("x", [0]), ("y", [0]), ("xe", [1, 5]), ("ye", [2, 0])], [], 0⟩

/-- A curve bound to `c4res` with both error columns configured. -/
def c4curve : ResultsCurve :=
  mkResultsCurve c4res "x" "y" (some "xe") (some "ye") false

/-- A source whose snapshot is missing the `"ye"` column. -/
def c2res : Results := ⟨[("x", [0]), ("y", [0]), ("xe", [1])], [], 0⟩

/-- A curve bound to `c2res` with error columns `"xe"`/`"ye"` configured and
an already-published series `([9], [9])`. -/
def c2curve : ResultsCurve :=
  { mkResultsCurve c2res "x" "y" (some "xe") (some "ye") false with
      series := some ([9], [9]) }

/-- A source that serves `x = [1], y = [2]` until `reload` installs
`x = [3], y = [4]`. -/
def c7res : Results := ⟨[("x", [1]), ("y", [2])], [("x", [3]), ("y", [4])], 0⟩

/-- A plain curve on `c7res` with force-reload enabled. -/
def c7curve : ResultsCurve := mkResultsCurve c7res "x" "y" none none true

/-- A source for the overlay-parity witness: all four columns length 1. -/
def c5res : Results :=
  ⟨[("x", [0]), ("y", [0]), ("xe", [1]), ("ye", [2])], [], 0⟩

/-- A curve bound to `c5res` with both error columns configured. -/
def c5curve : ResultsCurve :=
  mkResultsCurve c5res "x" "y" (some "xe") (some "ye") false

/-! ## General list helpers -/

/-- Writing at index `i` does not change the first `i` elements. -/
theorem take_set_eq {α : Type} (l : List α) (i : Nat) (a : α) :
    (l.set i a).take i = l.take i := by
  induction l generalizing i with
  | nil => simp
  | cons h t ih =>
    cases i with
    | zero => simp
    | succ j => simp [List.set, List.take, ih]

/-- Reading just past a left part reads the right part's head. -/
theorem getD_append_len {α : Type} (l₁ l₂ : List α) (d : α) :
    (l₁ ++ l₂).getD l₁.length d = l₂.getD 0 d := by
  induction l₁ with
  | nil => simp
  | cons h t ih => simpa using ih

/-- Writing just past a left part writes the right part's head. -/
theorem set_append_len {α : Type} (l₁ l₂ : List α) (a : α) :
    (l₁ ++ l₂).set l₁.length a = l₁ ++ l₂.set 0 a := by
  induction l₁ with
  | nil => simp
  | cons h t ih => simp [ih]

/-- Reading two cells of the row written for a point gives the point back. -/
theorem pairOf_xyRow (p : ℚ × ℚ) : pairOf (xyRow p) = p := rfl

/-- Variant of `getD_append_len` with the boundary index given as a side condition. -/
theorem getD_append_at {α : Type} (l₁ l₂ : List α) (d : α) (k : Nat)
    (hk : l₁.length = k) : (l₁ ++ l₂).getD k d = l₂.getD 0 d := by
  subst hk
  exact getD_append_len l₁ l₂ d

/-- Variant of `set_append_len` with the boundary index given as a side condition. -/
theorem set_append_at {α : Type} (l₁ l₂ : List α) (a : α) (k : Nat)
    (hk : l₁.length = k) : (l₁ ++ l₂).set k a = l₁ ++ l₂.set 0 a := by
  subst hk
  exact set_append_len l₁ l₂ a

/-- Taking exactly the left part of an append. -/
theorem take_append_at {α : Type} (l₁ l₂ : List α) (k : Nat)
    (hk : l₁.length = k) : (l₁ ++ l₂).take k = l₁ := by
  subst hk
  exact List.take_left l₁ l₂

/-! ## C1 -/

/-- C1 (capacity bound, error mode): evaluating the code at the failing
input. On a fresh error-mode buffer of capacity 2, the very first `append` —
called correctly, with both error magnitudes supplied — raises the
`ValueError` of `np.max` over the zero-size slice `buffer[:0,2:]`, before
`_ptr` is incremented or `data_updated` emitted. Hence `ptr` can never
leave 0 in error mode and no error-mode append ever succeeds, contradicting
the claim that exactly `C` appends succeed whether or not error mode was
selected. (Non-error mode does behave as claimed.) -/
theorem errorMode_first_append_raises :
    (bufAppend (bufPrepare (mkBufferCurve true) 2) 1 2 (some 1) (some 2)).2
        = some QtErr.valueErrorEmptyMax
    ∧ (bufAppend (bufPrepare (mkBufferCurve true) 2) 1 2 (some 1) (some 2)).1.ptr
        = 0
    ∧ (bufAppend (bufPrepare (mkBufferCurve true) 2) 1 2 (some 1) (some 2)).1.emits
        = 0 := by
  decide

/-! ## C8 -/

/-- C8: invoking `mouseMoved` with an explicit null event raises the
invalid-call error ("Mouse location not known") and leaves the whole state —
last recorded position, guide lines, published coordinates — unchanged. -/
theorem mouseMoved_null_raises (s : Crosshairs) :
    mouseMoved s none = (s, some QtErr.invalidCall) := rfl

/-! ## C9 -/

/-- C9: `Crosshairs.update()` with no recorded position is a no-op; with a
recorded position it maps it through the current view transform, publishes
the resulting pair on the `coordinates` signal and positions the vertical
guide at its x and the horizontal guide at its y. -/
theorem crosshairs_update_spec (s : Crosshairs) :
    (s.position = none → chUpdate s = s)
    ∧ (∀ p, s.position = some p →
        chUpdate s = { s with emitted := s.emitted ++ [applyT s.transform p],
                              vLine := (applyT s.transform p).1,
                              hLine := (applyT s.transform p).2 }) := by
  constructor
  · intro h; simp [chUpdate, h]
  · intro p h; simp [chUpdate, h]

/-- Witness for C9: identity transform, recorded scene position `(5, 7)`:
`update()` publishes `(5, 7)` and puts the guides at `x = 5`, `y = 7`. -/
theorem crosshairs_update_spec_witness :
    chUpdate { mkCrosshairs idTransform with position := some (5, 7) }
      = { transform := idTransform, position := some (5, 7), vLine := 5,
          hLine := 7, emitted := [(5, 7)] } := by
  have h := (crosshairs_update_spec
      { mkCrosshairs idTransform with position := some (5, 7) }).2 (5, 7) rfl
  rw [h]
  norm_num [applyT, idTransform, mkCrosshairs]

/-! ## C10 -/

/-- C10: on a buffer constructed without error mode, `append` with non-null
error arguments is exactly `append(x, y)` — the error magnitudes are
silently discarded and change nothing, neither the outcome nor any state. -/
theorem nonerror_append_ignores_error_args (s : BufferCurve) (x y a b : ℚ)
    (h : s.errors = false) :
    bufAppend s x y (some a) (some b) = bufAppend s x y none none := by
  cases hb : s.buffer with
  | none => simp [bufAppend, hb]
  | some buf => simp [bufAppend, hb, h]

/-- Witness for C10 at a concrete prepared non-error buffer. -/
theorem nonerror_append_ignores_error_args_witness :
    bufAppend (bufPrepare (mkBufferCurve false) 2) 1 2 (some 5) (some 6)
      = bufAppend (bufPrepare (mkBufferCurve false) 2) 1 2 none none :=
  nonerror_append_ignores_error_args _ 1 2 5 6 rfl

/-! ## C6 -/

/-- C6: appending to a never-prepared buffer fails with the configuration
error and nothing — notification included — happens; and in general the
`data_updated` notification fires exactly once per successful append and
never on a failed one. -/
theorem append_notification_discipline (s : BufferCurve) (x y : ℚ)
    (xe ye : Option ℚ) :
    (s.buffer = none → bufAppend s x y xe ye = (s, some QtErr.configurationError))
    ∧ ((bufAppend s x y xe ye).2 = none →
        (bufAppend s x y xe ye).1.emits = s.emits + 1)
    ∧ ((bufAppend s x y xe ye).2 ≠ none →
        (bufAppend s x y xe ye).1.emits = s.emits) := by
  refine ⟨fun h => by simp [bufAppend, h], ?_, ?_⟩ <;>
    · intro h
      cases hb : s.buffer with
      | none => simp [bufAppend, hb] at h ⊢
      | some buf =>
        by_cases hc : buf.length ≤ s.ptr
        · simp [bufAppend, hb, hc] at h ⊢
        · cases he : s.errors with
          | false => simp [bufAppend, hb, hc, he] at h ⊢
          | true =>
            cases xe with
            | none => simp [bufAppend, hb, hc, he] at h ⊢
            | some a =>
              cases ye with
              | none => simp [bufAppend, hb, hc, he] at h ⊢
              | some b =>
                have hne : buf ≠ [] := fun h0 => hc (by simp [h0])
                by_cases hp : s.ptr = 0 <;>
                  simp [bufAppend, hb, hc, he, hp, hne] at h ⊢

/-- Witness for C6: a never-prepared append fails with no emission, and a
successful append on a fresh capacity-1 buffer emits once. -/
theorem append_notification_discipline_witness :
    bufAppend (mkBufferCurve false) 1 2 none none
      = (mkBufferCurve false, some QtErr.configurationError)
    ∧ (bufAppend (bufPrepare (mkBufferCurve false) 1) 1 2 none none).1.emits
      = (bufPrepare (mkBufferCurve false) 1).emits + 1 := by
  refine ⟨(append_notification_discipline (mkBufferCurve false) 1 2 none none).1 rfl, ?_⟩
  exact (append_notification_discipline
      (bufPrepare (mkBufferCurve false) 1) 1 2 none none).2.1 (by decide)

/-! ## C7 -/

/-- Every `update()` replaces the bound source by its post-reload state (or leaves
it alone without force-reload) and touches no configuration field, on every
path — success or failure. -/
theorem rcUpdate_shape (c : ResultsCurve) :
    (rcUpdate c).1.results = effResults c
    ∧ (rcUpdate c).1.force_reload = c.force_reload := by
  cases h1 : List.lookup c.x (effResults c).current with
  | none => simp [rcUpdate, h1]
  | some xs =>
    cases h2 : List.lookup c.y (effResults c).current with
    | none => simp [rcUpdate, h1, h2]
    | some ys =>
      cases hE : c.hasErrorBars with
      | false => simp [rcUpdate, h1, h2, hE]
      | true =>
        cases h3 : lookupColO (effResults c).current c.yerr with
        | none => simp [rcUpdate, h1, h2, hE, h3]
        | some yes =>
          cases h4 : lookupColO (effResults c).current c.xerr with
          | none => simp [rcUpdate, h1, h2, hE, h3, h4]
          | some xes => simp [rcUpdate, h1, h2, hE, h3, h4]

/-- One `update()` performs one reload with force-reload and none without. -/
theorem effResults_reloadCount (c : ResultsCurve) :
    (effResults c).reloadCount
      = c.results.reloadCount + (if c.force_reload then 1 else 0) := by
  cases h : c.force_reload <;> simp [effResults, reloadR, h]

/-- Running `n` `update()` calls performs `n` reloads with force-reload enabled and
none with it disabled. -/
theorem rcUpdateN_reloadCount (n : Nat) (c : ResultsCurve) :
    (rcUpdateN n c).results.reloadCount
      = c.results.reloadCount + (if c.force_reload then n else 0) := by
  induction n generalizing c with
  | zero => simp [rcUpdateN]
  | succ n ih =>
    have hs := rcUpdate_shape c
    rw [rcUpdateN, ih, hs.2, hs.1, effResults_reloadCount]
    cases h : c.force_reload <;> (simp [h]; try omega)

/-- C7: with force-reload, every `update()` reloads the source exactly once,
and reads the snapshot only after the reload (the series it publishes comes
from the post-reload snapshot); without force-reload, any number of
`update()` calls performs zero reloads. -/
theorem reload_gating (c : ResultsCurve) (n : Nat) :
    ((rcUpdateN n c).results.reloadCount
      = c.results.reloadCount + (if c.force_reload then n else 0))
    ∧ (∀ xs ys, c.force_reload = true → c.hasErrorBars = false →
        List.lookup c.x (reloadR c.results).current = some xs →
        List.lookup c.y (reloadR c.results).current = some ys →
        (rcUpdate c).1.series = some (xs, ys)
        ∧ (rcUpdate c).2 = none
        ∧ (rcUpdate c).1.results.reloadCount = c.results.reloadCount + 1) := by
  refine ⟨rcUpdateN_reloadCount n c, ?_⟩
  intro xs ys hf hE hx hy
  have heff : effResults c = reloadR c.results := by simp [effResults, hf]
  simp only [reloadR] at hx hy
  simp [rcUpdate, heff, reloadR, hx, hy, hE]

/-- Witness for C7: on `c7curve` (force-reload on) two updates reload twice,
and the published series is the post-reload data `([3], [4])`, not the
pre-reload `([1], [2])`. -/
theorem reload_gating_witness :
    (rcUpdateN 2 c7curve).results.reloadCount = 2
    ∧ (rcUpdate c7curve).1.series = some ([3], [4])
    ∧ (rcUpdate c7curve).2 = none := by
  have h := reload_gating c7curve 2
  have h2 := h.2 [3] [4] rfl rfl (by decide) (by decide)
  exact ⟨by simpa [c7curve, c7res, mkResultsCurve] using h.1, h2.1, h2.2.1⟩

/-! ## C4 -/

/-- C4 counterexample: on `c4curve` (x-error column `[1, 5]`, y-error column
`[2, 0]`) a successful `update()` hands the overlay `right = [2, 0]` — the
y-error column, not the x-error column `[1, 5]` the claim requires — and a
beam of `[2, 0]` (Python's `max` of the two sequences), not the pointwise
maximum `[2, 5]` of the two extents across the visible data. -/
theorem overlay_right_uses_yerr_cex :
    (rcUpdate c4curve).2 = none
    ∧ ((rcUpdate c4curve).1.overlay).map ResOverlay.left = some [1, 5]
    ∧ ((rcUpdate c4curve).1.overlay).map ResOverlay.right = some [2, 0]
    ∧ List.lookup "xe" c4res.current = some [1, 5]
    ∧ ((rcUpdate c4curve).1.overlay).map ResOverlay.right
        ≠ List.lookup "xe" c4res.current
    ∧ ((rcUpdate c4curve).1.overlay).map ResOverlay.beam = some [2, 0]
    ∧ (List.zipWith max [1, 5] [2, 0] : List ℚ) = [2, 5]
    ∧ ((rcUpdate c4curve).1.overlay).map ResOverlay.beam ≠ some [2, 5] := by
  decide

/-- Shared characterization of a successful error-bar `update()`: the series
is replaced from the snapshot and the overlay is wired exactly as lines
42–49 do. -/
theorem rcUpdate_with_errorBars (c : ResultsCurve) (xs ys xes yes : List ℚ)
    (hE : c.hasErrorBars = true)
    (hx : List.lookup c.x (effResults c).current = some xs)
    (hy : List.lookup c.y (effResults c).current = some ys)
    (hye : lookupColO (effResults c).current c.yerr = some yes)
    (hxe : lookupColO (effResults c).current c.xerr = some xes) :
    (rcUpdate c).2 = none
    ∧ (rcUpdate c).1.series = some (xs, ys)
    ∧ (rcUpdate c).1.overlay
        = some ⟨xs, ys, yes, yes, xes, yes, pyMax xes yes⟩ := by
  simp [rcUpdate, hx, hy, hye, hxe, hE]

/-- C4 amended: a successful `update()` with error bars recomputes the
overlay from the same snapshot as the primary series, with the top, bottom
and *right* extents all taken from the y-error column, only the left extent
from the x-error column, and the beam being Python's `max` of the two error
columns — the lexicographically larger sequence, the x-error column on
ties — rather than a pointwise maximum. -/
theorem overlay_wiring_amended (c : ResultsCurve) (xs ys xes yes : List ℚ)
    (hE : c.hasErrorBars = true)
    (hx : List.lookup c.x (effResults c).current = some xs)
    (hy : List.lookup c.y (effResults c).current = some ys)
    (hye : lookupColO (effResults c).current c.yerr = some yes)
    (hxe : lookupColO (effResults c).current c.xerr = some xes) :
    (rcUpdate c).2 = none
    ∧ (rcUpdate c).1.series = some (xs, ys)
    ∧ (rcUpdate c).1.overlay
        = some ⟨xs, ys, yes, yes, xes, yes, pyMax xes yes⟩ :=
  rcUpdate_with_errorBars c xs ys xes yes hE hx hy hye hxe

/-- Witness for C4's amended claim at `c4curve`. -/
theorem overlay_wiring_amended_witness :
    (rcUpdate c4curve).1.overlay
      = some ⟨[0], [0], [2, 0], [2, 0], [1, 5], [2, 0], [2, 0]⟩ := by
  have h := overlay_wiring_amended c4curve [0] [0] [1, 5] [2, 0]
    rfl (by decide) (by decide) (by decide) (by decide)
  exact h.2.2.trans (by decide)

/-! ## C5 -/

/-- C5: overlay/series length parity. For the buffer, the six sequences
`append` computes for `setOpts` are all slices `buffer[:ptr,·]` of exactly
the length of the `buffer[:ptr,:2]` slice it publishes through `setData` in
the same call. For the polled curve, a successful `update()` with error
bars, on a snapshot whose columns all have length `n` (the source contract),
replaces the series by two length-`n` columns and hands the overlay
sequences — beam included — all of length `n`. -/
theorem overlay_series_length_parity
    (buf : List (List ℚ)) (ptr : Nat) (beam : ℚ)
    (c : ResultsCurve) (xs ys xes yes : List ℚ) (n : Nat) :
    ((bufErrOpts buf ptr beam).x.length = (visSlice buf ptr).length
      ∧ (bufErrOpts buf ptr beam).y.length = (visSlice buf ptr).length
      ∧ (bufErrOpts buf ptr beam).top.length = (visSlice buf ptr).length
      ∧ (bufErrOpts buf ptr beam).bottom.length = (visSlice buf ptr).length
      ∧ (bufErrOpts buf ptr beam).left.length = (visSlice buf ptr).length
      ∧ (bufErrOpts buf ptr beam).right.length = (visSlice buf ptr).length)
    ∧ (c.hasErrorBars = true →
        List.lookup c.x (effResults c).current = some xs →
        List.lookup c.y (effResults c).current = some ys →
        lookupColO (effResults c).current c.yerr = some yes →
        lookupColO (effResults c).current c.xerr = some xes →
        xs.length = n → ys.length = n → xes.length = n → yes.length = n →
        (rcUpdate c).1.series = some (xs, ys)
        ∧ (rcUpdate c).1.overlay
            = some ⟨xs, ys, yes, yes, xes, yes, pyMax xes yes⟩
        ∧ (pyMax xes yes).length = n) := by
  constructor
  · simp [bufErrOpts, colSlice, visSlice]
  · intro hE hx hy hye hxe hxs hys hxes hyes
    have h := rcUpdate_with_errorBars c xs ys xes yes hE hx hy hye hxe
    refine ⟨h.2.1, h.2.2, ?_⟩
    unfold pyMax
    split
    · exact hyes
    · exact hxes

/-- Witness for C5 on `c5curve`: all columns length 1, series and every
overlay sequence length 1. -/
theorem overlay_series_length_parity_witness :
    (rcUpdate c5curve).1.series = some ([0], [0])
    ∧ (rcUpdate c5curve).1.overlay
        = some ⟨[0], [0], [2], [2], [1], [2], [2]⟩ := by
  have h := (overlay_series_length_parity [] 0 0 c5curve [0] [0] [1] [2] 1).2
    rfl (by decide) (by decide) (by decide) (by decide) rfl rfl rfl rfl
  exact ⟨h.1, h.2.1.trans (by decide)⟩

/-! ## C2 -/

/-- C2 counterexample: a failed `PolledCurve.update` is not effect-free. On
`c2curve` the configured y-error column `"ye"` is absent from the snapshot,
so `update()` fails — yet the primary series was already replaced by
`setData` (line 38) before the failing error-column access (line 45): the
series changes from `([9], [9])` to `([0], [0])`. -/
theorem update_nonatomic_cex :
    ((rcUpdate c2curve).2).isSome = true
    ∧ (rcUpdate c2curve).1.series = some ([0], [0])
    ∧ c2curve.series = some ([9], [9])
    ∧ (rcUpdate c2curve).1.series ≠ c2curve.series := by
  decide

/-- C2 amended: failures detected by the pre-checks have no effect — append
before prepare, append at capacity, and an update whose x or y column is
absent leave series, overlay, cursor and notifications untouched (an update
still performs its forced reload first). But mid-call failures do leave a
partial effect: an error-bar update whose y-error (or x-error) column is
absent from the snapshot fails only after the primary series was replaced,
with the overlay unchanged; an error-mode append with a missing error
argument fails after the `(x, y)` record was written and the visible slice
republished; and an error-mode append at `ptr = 0` with both error
magnitudes supplied fails at the beam computation over the empty slice,
after the record was written and the (empty) visible slice republished — in
every failing case `ptr`, the overlay and the notification count are
unchanged. -/
theorem failure_atomicity_amended (s : BufferCurve) (x y : ℚ)
    (xe ye : Option ℚ) (c : ResultsCurve) :
    (s.buffer = none →
      bufAppend s x y xe ye = (s, some QtErr.configurationError))
    ∧ (∀ buf, s.buffer = some buf → buf.length ≤ s.ptr →
        bufAppend s x y xe ye = (s, some QtErr.capacityExceeded))
    ∧ (List.lookup c.x (effResults c).current = none →
        (rcUpdate c).1.series = c.series ∧ (rcUpdate c).1.overlay = c.overlay
        ∧ (rcUpdate c).2 = some QtErr.dataBinding)
    ∧ (∀ xs, List.lookup c.x (effResults c).current = some xs →
        List.lookup c.y (effResults c).current = none →
        (rcUpdate c).1.series = c.series ∧ (rcUpdate c).1.overlay = c.overlay
        ∧ (rcUpdate c).2 = some QtErr.dataBinding)
    ∧ (∀ xs ys, c.hasErrorBars = true →
        List.lookup c.x (effResults c).current = some xs →
        List.lookup c.y (effResults c).current = some ys →
        lookupColO (effResults c).current c.yerr = none →
        (rcUpdate c).1.series = some (xs, ys)
        ∧ (rcUpdate c).1.overlay = c.overlay
        ∧ (rcUpdate c).2 = some QtErr.dataBinding)
    ∧ (∀ xs ys yes, c.hasErrorBars = true →
        List.lookup c.x (effResults c).current = some xs →
        List.lookup c.y (effResults c).current = some ys →
        lookupColO (effResults c).current c.yerr = some yes →
        lookupColO (effResults c).current c.xerr = none →
        (rcUpdate c).1.series = some (xs, ys)
        ∧ (rcUpdate c).1.overlay = c.overlay
        ∧ (rcUpdate c).2 = some QtErr.dataBinding)
    ∧ (∀ buf, s.errors = true → s.buffer = some buf → s.ptr < buf.length →
        (xe = none ∨ ye = none) →
        (bufAppend s x y xe ye).2 = some QtErr.typeErrorNoneFloat
        ∧ (bufAppend s x y xe ye).1.ptr = s.ptr
        ∧ (bufAppend s x y xe ye).1.emits = s.emits
        ∧ (bufAppend s x y xe ye).1.overlay = s.overlay
        ∧ (bufAppend s x y xe ye).1.series = some (visSlice buf s.ptr))
    ∧ (∀ buf a b, s.errors = true → s.buffer = some buf →
        s.ptr < buf.length → s.ptr = 0 → xe = some a → ye = some b →
        (bufAppend s x y xe ye).2 = some QtErr.valueErrorEmptyMax
        ∧ (bufAppend s x y xe ye).1.ptr = s.ptr
        ∧ (bufAppend s x y xe ye).1.emits = s.emits
        ∧ (bufAppend s x y xe ye).1.overlay = s.overlay
        ∧ (bufAppend s x y xe ye).1.series = some []) := by
  refine ⟨fun h => by simp [bufAppend, h], ?_, ?_, ?_, ?_, ?_, ?_, ?_⟩
  · intro buf hb hc
    simp [bufAppend, hb, hc]
  · intro hx
    simp [rcUpdate, hx]
  · intro xs hx hy
    simp [rcUpdate, hx, hy]
  · intro xs ys hE hx hy hye
    simp [rcUpdate, hx, hy, hE, hye]
  · intro xs ys yes hE hx hy hye hxe
    simp [rcUpdate, hx, hy, hE, hye, hxe]
  · intro buf he hb hlt hnone
    have hc : ¬ buf.length ≤ s.ptr := by omega
    have hvis : ∀ r, visSlice (buf.set s.ptr r) s.ptr = visSlice buf s.ptr := by
      intro r
      unfold visSlice
      rw [take_set_eq]
    rcases hnone with h0 | h0
    · subst h0
      cases ye <;> simp [bufAppend, hb, hc, he, hvis]
    · subst h0
      cases xe <;> simp [bufAppend, hb, hc, he, hvis]
  · intro buf a b he hb hlt hp hxe hye
    subst hxe; subst hye
    have hc : ¬ buf.length ≤ s.ptr := by omega
    have hne : buf ≠ [] := by
      intro h0
      rw [h0] at hlt
      simp at hlt
    simp [bufAppend, hb, hc, he, hp, hne, visSlice]

/-- Witness for C2's amended claim: a never-prepared append has no effect,
and on `c2curve` the absent-error-column update replaces the series while
leaving the overlay untouched. -/
theorem failure_atomicity_amended_witness :
    bufAppend (mkBufferCurve false) 1 2 none none
      = (mkBufferCurve false, some QtErr.configurationError)
    ∧ (rcUpdate c2curve).1.series = some ([0], [0])
    ∧ (rcUpdate c2curve).1.overlay = none
    ∧ (rcUpdate c2curve).2 = some QtErr.dataBinding := by
  have h := failure_atomicity_amended (mkBufferCurve false) 1 2 none none c2curve
  have h5 := h.2.2.2.2.1 [0] [0] rfl (by decide) (by decide) (by decide)
  exact ⟨h.1 rfl, h5.1, h5.2.1.trans (by decide), h5.2.2⟩

/-! ## C3 -/

/-- A freshly prepared non-error buffer is the invariant state with no
points appended. -/
theorem prepare_eq_nonErrState (C : Nat) :
    bufPrepare (mkBufferCurve false) C = nonErrState C [] := rfl

/-- One successful non-error append from the invariant state: the new point
is written at the cursor, the series published is everything appended before
this call, and cursor and emission count advance together. -/
theorem nonErr_append_step (C : Nat) (done : List (ℚ × ℚ)) (x y : ℚ)
    (xe ye : Option ℚ) (h : done.length < C) :
    bufAppend (nonErrState C done) x y xe ye
      = (nonErrState C (done ++ [(x, y)]), none) := by
  obtain ⟨m, hm⟩ : ∃ m, C - done.length = m + 1 := ⟨C - done.length - 1, by omega⟩
  have hm2 : C - (done.length + 1) = m := by omega
  have hlen : ¬ (done.map xyRow ++ List.replicate (C - done.length) (zrow 2)).length
      ≤ done.length := by
    simp
    omega
  have hget : (done.map xyRow ++ List.replicate (C - done.length) (zrow 2)).getD
      done.length [] = zrow 2 := by
    rw [getD_append_at (done.map xyRow) (List.replicate (C - done.length) (zrow 2))
      [] done.length (by simp), hm, List.replicate_succ]
    rfl
  have hset : (done.map xyRow ++ List.replicate (C - done.length) (zrow 2)).set
      done.length (setXY (zrow 2) x y)
      = (done ++ [(x, y)]).map xyRow ++ List.replicate (C - (done.length + 1)) (zrow 2) := by
    rw [set_append_at (done.map xyRow) (List.replicate (C - done.length) (zrow 2))
      (setXY (zrow 2) x y) done.length (by simp), hm, List.replicate_succ]
    simp [hm2, setXY, zrow, xyRow]
  have hvis : visSlice ((done ++ [(x, y)]).map xyRow
      ++ List.replicate (C - (done.length + 1)) (zrow 2)) done.length = done := by
    unfold visSlice
    rw [List.map_append, List.append_assoc]
    rw [take_append_at (done.map xyRow) ([(x, y)].map xyRow
      ++ List.replicate (C - (done.length + 1)) (zrow 2)) done.length (by simp)]
    rw [List.map_map]
    have hcomp : pairOf ∘ xyRow = id := by
      funext p
      exact pairOf_xyRow p
    rw [hcomp, List.map_id]
  have hisem : ((done ++ [(x, y)]).isEmpty) = false := by simp
  have htk : (done ++ [(x, y)]).take ((done ++ [(x, y)]).length - 1) = done := by
    simp only [List.length_append, List.length_singleton, Nat.add_sub_cancel]
    exact take_append_at done [(x, y)] done.length rfl
  simp only [bufAppend, nonErrState, hlen, if_false, hget, hset, hvis, hisem,
    htk]
  simp [List.length_append]

/-- Iterating successful non-error appends from the invariant state. -/
theorem nonErr_append_seq (C : Nat)
    (pts : List ((ℚ × ℚ) × Option ℚ × Option ℚ)) :
    ∀ done : List (ℚ × ℚ), done.length + pts.length ≤ C →
      bufAppendSeq (nonErrState C done) pts
        = (nonErrState C (done ++ pts.map (fun a => a.1)), none) := by
  induction pts with
  | nil =>
    intro done h
    simp [bufAppendSeq]
  | cons a as ih =>
    intro done h
    have hlt : done.length < C := by
      simp at h
      omega
    rw [bufAppendSeq, nonErr_append_step C done a.1.1 a.1.2 a.2.1 a.2.2 hlt]
    show bufAppendSeq (nonErrState C (done ++ [a.1])) as
        = (nonErrState C (done ++ List.map (fun a => a.1) (a :: as)), none)
    rw [ih (done ++ [a.1]) (by simp at h ⊢; omega)]
    simp

/-- C3: visibility lag. Starting from any freshly prepared buffer of
capacity `C`, if a sequence of `k` appends (`0 < k ≤ C`) all succeed, the
published visible slice is exactly the first `k − 1` appended points — in
particular it is empty after the first append, and each point becomes
visible only from the next successful append on. -/
theorem visibility_lag (e : Bool) (C : Nat)
    (pts : List ((ℚ × ℚ) × Option ℚ × Option ℚ))
    (hk : 0 < pts.length) (hkC : pts.length ≤ C)
    (hok : (bufAppendSeq (bufPrepare (mkBufferCurve e) C) pts).2 = none) :
    (bufAppendSeq (bufPrepare (mkBufferCurve e) C) pts).1.series
      = some ((pts.map (fun a => a.1)).take (pts.length - 1))
    ∧ ((bufAppendSeq (bufPrepare (mkBufferCurve e) C) pts).1.series).map
        List.length = some (pts.length - 1) := by
  cases e with
  | false =>
    have hseq := nonErr_append_seq C pts [] (by simpa using hkC)
    rw [prepare_eq_nonErrState] at hok ⊢
    rw [hseq]
    have hne : ((pts.map (fun a => a.1)).isEmpty) = false := by
      cases pts with
      | nil => simp at hk
      | cons a as => simp
    constructor
    · simp [nonErrState, hne]
    · simp [nonErrState, hne, List.length_take]
  | true =>
    exfalso
    cases pts with
    | nil => simp at hk
    | cons a as =>
      have hC0 : C ≠ 0 := by
        simp at hkC
        omega
      rw [bufAppendSeq] at hok
      cases hxe : a.2.1 with
      | none =>
        simp [bufAppend, bufPrepare, mkBufferCurve, hC0, hxe] at hok
      | some av =>
        cases hye : a.2.2 with
        | none =>
          simp [bufAppend, bufPrepare, mkBufferCurve, hC0, hxe, hye] at hok
        | some bv =>
          simp [bufAppend, bufPrepare, mkBufferCurve, hC0, hxe, hye] at hok

/-- Witness for C3: capacity 3, two successful appends of `(1, 2)` and
`(3, 4)`; the published series is `[(1, 2)]`, length 1. -/
theorem visibility_lag_witness :
    (bufAppendSeq (bufPrepare (mkBufferCurve false) 3)
        [((1, 2), (none, none)), ((3, 4), (none, none))]).1.series
      = some [(1, 2)] := by
  have h := visibility_lag false 3 [((1, 2), (none, none)), ((3, 4), (none, none))]
    (by decide) (by decide) (by decide)
  simpa using h.1

end Qtgraph
